import Mathlib

/-!
Shallow embedding of the userspace event engine of the ebpf repository,
centred on the JSON emitters of non-GPL/Events/EventsTrace/EventsTrace.c.

Byte buffers are modelled as `List Nat`, one entry per byte (0..255).
C strings are NUL terminated; strlen-style reads are modelled with
`List.takeWhile`, which is faithful exactly when the buffer holds a NUL
(claim C9 treats the case where it does not).

The printf output stream is modelled as a list of `Chunk` values, one per
helper call of the C file, in call order; `Chunk.render` flattens one chunk
to the text printf writes for that helper, so the whole emission is the
concatenation of the rendered chunks.

The reference build is x86_64, where the C type char is signed: a byte at
or above 0x80 read into a char is negative, which matters to out_string
(claim C1).
-/

namespace EventsTrace

/-- ASCII hex digit as printf x prints it (lower case). -/
def hexDigit (n : Nat) : Char :=
  if n < 10 then Char.ofNat (48 + n) else Char.ofNat (87 + n)

/-- Hexadecimal digits of n, most significant first; the fuel bounds the
digit count (8 covers every 32-bit value). -/
def hexChars : Nat → Nat → List Char
  | 0, _ => []
  | f + 1, n => if n = 0 then [] else hexChars f (n / 16) ++ [hexDigit (n % 16)]

/-- printf "%02x": hexadecimal, zero padded to a minimum of two digits. -/
def printf02x (n : Nat) : String :=
  let ds := if n = 0 then ['0'] else hexChars 8 n
  String.mk (if ds.length < 2 then '0' :: ds else ds)

/-- The int value printf receives for byte b stored in a char on the x86_64
reference build, where char is signed: bytes at and above 0x80 sign extend,
and the %x conversion then prints the full 32-bit pattern (printf reads the
promoted argument as an unsigned int). 4294967040 is 2^32 - 256. -/
def charPromote (b : Nat) : Nat :=
  if b < 128 then b else 4294967040 + b

/-- The escape out_string (EventsTrace.c lines 211-237) emits for one byte
of the buffer: the switch on the char c, then the default branch, where
isascii(c) is false for bytes at and above 0x80 (negative chars) and
iscntrl(c) holds for 0..31 and 127; every such byte goes through
printf("\\x%02x", c) with the char value promoted to int. -/
def escByte (b : Nat) : String :=
  if b = 10 then "\\n"
  else if b = 13 then "\\r"
  else if b = 92 then "\\\\"
  else if b = 34 then "\\\""
  else if b = 9 then "\\t"
  else if b = 8 then "\\b"
  else if 128 ≤ b ∨ b < 32 ∨ b = 127 then "\\x" ++ printf02x (charPromote b)
  else String.singleton (Char.ofNat b)

/-- The escapes of a run of bytes, concatenated in order. -/
def escBytes (l : List Nat) : String :=
  String.join (l.map escByte)

/-- strlen on a byte buffer: length of the prefix before the first NUL.
Faithful only when a NUL is present; without one the C call reads past the
end of the buffer (claim C9). -/
def cstrlen (buf : List Nat) : Nat :=
  (buf.takeWhile (fun b => b != 0)).length

/-- One unit of printf output, at the granularity of the out_* helpers of
EventsTrace.c. -/
inductive Chunk where
  | objStart
  | objEnd
  | comma
  | newline
  | eventType (t : String)
  | key (name : String)
  | field (name : String) (value : String)
  | strField (name : String) (value : String)
  | boolField (name : String) (value : Bool)
  deriving DecidableEq

/-- The text printf writes for one chunk. -/
def Chunk.render : Chunk → String
  | .objStart => "\x7b"
  | .objEnd => "\x7d"
  | .comma => ","
  | .newline => "\n"
  | .eventType t => "\"event_type\":\"" ++ t ++ "\""
  | .key n => "\"" ++ n ++ "\":"
  | .field n v => "\"" ++ n ++ "\":" ++ v
  | .strField n v => "\"" ++ n ++ "\":\"" ++ v ++ "\""
  | .boolField n b => "\"" ++ n ++ "\":\"" ++ (if b then "TRUE" else "FALSE") ++ "\""

/-- out_uint (line 193): printf "\"%s\":%lu". -/
def out_uint (name : String) (value : Nat) : Chunk :=
  .field name (Nat.repr value)

/-- out_int (line 198): printf "\"%s\":%ld". -/
def out_int (name : String) (value : Int) : Chunk :=
  .field name (toString value)

/-- out_bool (line 203). -/
def out_bool (name : String) (value : Bool) : Chunk :=
  .boolField name value

/-- out_string (lines 208-241): the loop runs for i in [0, strlen value)
and prints the escape of each byte read. -/
def out_string (name : String) (value : List Nat) : Chunk :=
  .strField name (String.join ((value.take (cstrlen value)).map escByte))

/-- The prefix of length (takeWhile p l).length of l is takeWhile p l. -/
theorem take_length_takeWhile (p : Nat → Bool) (l : List Nat) :
    l.take (l.takeWhile p).length = l.takeWhile p := by
  induction l with
  | nil => rfl
  | cons a t ih =>
    by_cases h : p a
    · simp [List.takeWhile_cons, h, ih]
    · simp [List.takeWhile_cons, h]

/-- C10: for a NUL terminated buffer, out_string emits exactly the escaped
form of the bytes before the first NUL; no byte at or after the first NUL
reaches the output. -/
theorem C10_out_string_stops_at_first_nul (name : String) (buf : List Nat)
    (_h : 0 ∈ buf) :
    out_string name buf
      = Chunk.strField name (escBytes (buf.takeWhile (fun b => b != 0))) := by
  unfold out_string escBytes cstrlen
  rw [take_length_takeWhile]

/-- C10 witness: the buffer "a\0b" prints as "a"; the byte after the
embedded NUL is dropped. -/
theorem C10_witness : out_string "path" [97, 0, 98] = Chunk.strField "path" "a" :=
  (C10_out_string_stops_at_first_nul "path" [97, 0, 98] (by decide)).trans (by rfl)

/-- C1: the non-ASCII byte 0x80 is escaped, but not as a two-digit \xHH
sequence: on the signed-char reference build the char sign extends before
printf("\\x%02x", c), which prints the eight hex digits ffffff80. -/
theorem C1_nonascii_escape_sign_extends :
    escByte 128 = "\\xffffff80" ∧
    out_string "comm" [128, 0] = Chunk.strField "comm" "\\xffffff80" := by
  constructor
  · rfl
  · rfl

/-- The first loop of out_argv (lines 303-306): every NUL byte of the
scratch copy becomes a space. -/
def nulToSpace (b : Nat) : Nat :=
  if b = 0 then 32 else b

/-- The second loop of out_argv (lines 308-313): scan indices k, k-1, ...,
0 of the scratch space and return the first index found holding a byte
other than a space (the loop breaks there), or none when every scanned
byte is a space (the loop falls off without writing a terminator). -/
def scan_down (s : List Nat) : Nat → Option Nat
  | 0 => if s.getD 0 0 ≠ 32 then some 0 else none
  | k + 1 => if s.getD (k + 1) 0 ≠ 32 then some (k + 1) else scan_down s k

/-- The scratch buffer of out_argv (lines 300-313) as out_string receives
it: every NUL replaced by a space and, when the downward scan from index
n-2 finds a non-space byte at i, a NUL written at index i+1. For n below 2
the int loop index starts negative and the scan never runs. -/
def argv_scratch (buf : List Nat) : List Nat :=
  let m := buf.map nulToSpace
  if buf.length < 2 then m
  else
    match scan_down m (buf.length - 2) with
    | some i => m.set (i + 1) 0
    | none => m

/-- out_argv (lines 296-316): rework the argv buffer in the scratch space,
then hand it to out_string. -/
def out_argv (name : String) (buf : List Nat) : Chunk :=
  out_string name (argv_scratch buf)

/-- A list with its trailing spaces (byte 32) removed. -/
def dropTrailingSpaces (l : List Nat) : List Nat :=
  (l.reverse.dropWhile (fun b => b == 32)).reverse

theorem nulToSpace_ne_zero (b : Nat) : nulToSpace b ≠ 0 := by
  unfold nulToSpace
  split <;> omega

theorem getD_zero_eq_getElem (l : List Nat) (i : Nat) (h : i < l.length) :
    l.getD i 0 = l[i] := by
  simp [List.getD_eq_getElem?_getD, List.getElem?_eq_getElem h]

theorem scan_down_eq_none (s : List Nat) (k : Nat) :
    scan_down s k = none ↔ ∀ j, j ≤ k → s.getD j 0 = 32 := by
  induction k with
  | zero =>
    constructor
    · intro h j hj
      obtain rfl : j = 0 := Nat.le_zero.mp hj
      by_contra hne
      rw [scan_down, if_pos hne] at h
      exact Option.noConfusion h
    · intro h
      rw [scan_down, if_neg (not_not_intro (h 0 (Nat.le_refl 0)))]
  | succ k ih =>
    constructor
    · intro h j hj
      by_cases hk : s.getD (k + 1) 0 = 32
      · rw [scan_down, if_neg (not_not_intro hk)] at h
        rcases Nat.lt_or_ge j (k + 1) with hj2 | hj2
        · exact ih.mp h j (Nat.lt_succ_iff.mp hj2)
        · obtain rfl : j = k + 1 := Nat.le_antisymm hj hj2
          exact hk
      · rw [scan_down, if_pos hk] at h
        exact Option.noConfusion h
    · intro h
      rw [scan_down, if_neg (not_not_intro (h (k + 1) (Nat.le_refl _)))]
      exact ih.mpr fun j hj => h j (Nat.le_succ_of_le hj)

theorem scan_down_spec (s : List Nat) (k : Nat) :
    ∀ i, scan_down s k = some i →
      i ≤ k ∧ s.getD i 0 ≠ 32 ∧ ∀ j, i < j → j ≤ k → s.getD j 0 = 32 := by
  induction k with
  | zero =>
    intro i h
    by_cases h0 : s.getD 0 0 = 32
    · rw [scan_down, if_neg (not_not_intro h0)] at h
      exact Option.noConfusion h
    · rw [scan_down, if_pos h0] at h
      obtain rfl : 0 = i := Option.some.inj h
      exact ⟨Nat.le_refl 0, h0, fun j h1 h2 => by omega⟩
  | succ k ih =>
    intro i h
    by_cases hk : s.getD (k + 1) 0 = 32
    · rw [scan_down, if_neg (not_not_intro hk)] at h
      obtain ⟨h1, h2, h3⟩ := ih i h
      refine ⟨Nat.le_succ_of_le h1, h2, fun j hj1 hj2 => ?_⟩
      rcases Nat.lt_or_ge j (k + 1) with hj3 | hj3
      · exact h3 j hj1 (Nat.lt_succ_iff.mp hj3)
      · obtain rfl : j = k + 1 := Nat.le_antisymm hj2 hj3
        exact hk
    · rw [scan_down, if_pos hk] at h
      obtain rfl : k + 1 = i := Option.some.inj h
      exact ⟨Nat.le_refl _, hk, fun j h1 h2 => by omega⟩

theorem takeWhile_set_zero (l : List Nat) (i : Nat)
    (hall : ∀ x ∈ l, x ≠ 0) (hi : i < l.length) :
    (l.set i 0).takeWhile (fun b => b != 0) = l.take i := by
  induction l generalizing i with
  | nil => simp at hi
  | cons a t ih =>
    cases i with
    | zero => simp
    | succ i =>
      have ha : a ≠ 0 := hall a (List.mem_cons_self a t)
      have hrec := ih i (fun x hx => hall x (List.mem_cons_of_mem a hx))
        (by simpa using hi)
      simp only [List.set_cons_succ, List.take_succ_cons]
      rw [List.takeWhile_cons_of_pos (by simpa using ha), hrec]

theorem dropWhile_append_of_forall (p : Nat → Bool) (l1 l2 : List Nat)
    (h : ∀ x ∈ l1, p x = true) :
    (l1 ++ l2).dropWhile p = l2.dropWhile p := by
  induction l1 with
  | nil => rfl
  | cons a t ih =>
    have ha := h a (List.mem_cons_self a t)
    simp only [List.cons_append, List.dropWhile_cons, ha, if_true]
    exact ih fun x hx => h x (List.mem_cons_of_mem a hx)

theorem dropTrailingSpaces_eq_take (l : List Nat) (i : Nat)
    (hi : i < l.length) (hne : l.getD i 0 ≠ 32)
    (hall : ∀ j, i < j → j < l.length → l.getD j 0 = 32) :
    dropTrailingSpaces l = l.take (i + 1) := by
  have hdrop : ∀ x ∈ (l.drop (i + 1)).reverse, (fun b => b == 32) x = true := by
    intro x hx
    rw [List.mem_reverse] at hx
    obtain ⟨j, hj, rfl⟩ := List.mem_iff_getElem.mp hx
    have hjlen : j < l.length - (i + 1) := by simpa using hj
    have hlt : i + 1 + j < l.length := by omega
    rw [List.getElem_drop, ← getD_zero_eq_getElem l _ hlt]
    exact beq_iff_eq.mpr (hall _ (by omega) hlt)
  have hlast : ¬((fun b => b == 32) l[i] = true) := by
    simp only [beq_iff_eq]
    rw [← getD_zero_eq_getElem l i hi]
    exact hne
  have htake : l.take (i + 1) = l.take i ++ [l[i]] := by
    rw [List.take_succ, List.getElem?_eq_getElem hi]
    rfl
  unfold dropTrailingSpaces
  conv_lhs => rw [← List.take_append_drop (i + 1) l]
  rw [List.reverse_append, dropWhile_append_of_forall _ _ _ hdrop, htake,
    List.reverse_append, List.reverse_singleton, List.singleton_append,
    List.dropWhile_cons, if_neg hlast, List.reverse_cons, List.reverse_reverse]

/-- C2 fails as stated: the 4-byte buffer [97, 32, 0, 0] stores the single
argument "a " whose trailing space belongs to the argument itself; the
claim demands the output "a ", but out_argv trims every trailing space and
emits "a". -/
theorem C2_counterexample :
    out_argv "argv" [97, 32, 0, 0] = Chunk.strField "argv" "a" ∧
    Chunk.strField "argv" "a" ≠ Chunk.strField "argv" (escBytes [97, 32]) := by
  constructor
  · rfl
  · decide

/-- C2 (amended): out_argv replaces every NUL with a space and truncates
after the last non-space byte among the first n-1 buffer bytes, so the
emitted value is the NUL-to-space image of the first n-1 bytes with ALL
trailing spaces stripped - the join separator, the NUL padding, and any
trailing spaces of the last argument alike - provided some byte among the
first n-1 is neither NUL nor space (claim C9 treats the remaining case). -/
theorem C2_out_argv_trims_all_trailing_spaces (name : String) (buf : List Nat)
    (h : ∃ i, i + 1 < buf.length ∧ buf.getD i 0 ≠ 0 ∧ buf.getD i 0 ≠ 32) :
    out_argv name buf
      = Chunk.strField name
          (escBytes (dropTrailingSpaces
            ((buf.take (buf.length - 1)).map nulToSpace))) := by
  obtain ⟨i, hilen, hnz, hns⟩ := h
  have hib : i < buf.length := by omega
  have hmlen : (buf.map nulToSpace).length = buf.length := by simp
  have him : i < (buf.map nulToSpace).length := by omega
  have hmne : (buf.map nulToSpace).getD i 0 ≠ 32 := by
    rw [getD_zero_eq_getElem _ i him, List.getElem_map,
      ← getD_zero_eq_getElem buf i hib]
    unfold nulToSpace
    rw [if_neg hnz]
    exact hns
  obtain ⟨j, hj⟩ : ∃ j, scan_down (buf.map nulToSpace) (buf.length - 2) = some j := by
    cases hcase : scan_down (buf.map nulToSpace) (buf.length - 2) with
    | some j => exact ⟨j, rfl⟩
    | none =>
      exact absurd ((scan_down_eq_none _ _).mp hcase i (by omega)) hmne
  obtain ⟨hjle, hjne, hjall⟩ := scan_down_spec _ _ j hj
  have hscr : argv_scratch buf = (buf.map nulToSpace).set (j + 1) 0 := by
    simp only [argv_scratch]
    rw [if_neg (by omega), hj]
  have hallm : ∀ x ∈ buf.map nulToSpace, x ≠ 0 := by
    intro x hx
    obtain ⟨b, _, rfl⟩ := List.mem_map.mp hx
    exact nulToSpace_ne_zero b
  have hj1 : j + 1 < (buf.map nulToSpace).length := by omega
  have hout : out_argv name buf
      = Chunk.strField name (escBytes ((buf.map nulToSpace).take (j + 1))) := by
    unfold out_argv out_string cstrlen escBytes
    rw [hscr, take_length_takeWhile, takeWhile_set_zero _ _ hallm hj1]
  have hlen2 : ((buf.map nulToSpace).take (buf.length - 1)).length
      = buf.length - 1 := by
    rw [List.length_take]
    omega
  have hne2 : ((buf.map nulToSpace).take (buf.length - 1)).getD j 0 ≠ 32 := by
    have hjlt : j < ((buf.map nulToSpace).take (buf.length - 1)).length := by omega
    rw [getD_zero_eq_getElem _ j hjlt, List.getElem_take,
      ← getD_zero_eq_getElem _ j (by omega)]
    exact hjne
  have hall2 : ∀ j2, j < j2 →
      j2 < ((buf.map nulToSpace).take (buf.length - 1)).length →
      ((buf.map nulToSpace).take (buf.length - 1)).getD j2 0 = 32 := by
    intro j2 hj2a hj2b
    rw [getD_zero_eq_getElem _ j2 hj2b, List.getElem_take,
      ← getD_zero_eq_getElem _ j2 (by rw [hlen2] at hj2b; omega)]
    rw [hlen2] at hj2b
    exact hjall j2 hj2a (by omega)
  rw [hout, List.map_take,
    dropTrailingSpaces_eq_take ((buf.map nulToSpace).take (buf.length - 1)) j
      (by omega) hne2 hall2, List.take_take]
  have hmin : min (j + 1) (buf.length - 1) = j + 1 := by omega
  rw [hmin]

/-- C2 witness for the amended statement: the buffer "hi\0\0" prints as
"hi", the join separator and the padding stripped. -/
theorem C2_witness : out_argv "argv" [104, 105, 0, 0] = Chunk.strField "argv" "hi" :=
  (C2_out_argv_trims_all_trailing_spaces "argv" [104, 105, 0, 0]
    ⟨0, by decide⟩).trans (by rfl)

/-- C9 fails: on the all-NUL two-byte buffer every scratch byte becomes a
space, the downward scan finds no non-space byte among indices 0..n-2, and
no NUL terminator is ever written into the scratch space, so the strlen
inside out_string reads past the end of the scratch buffer. -/
theorem C9_scratch_not_terminated :
    argv_scratch [0, 0] = [32, 32] ∧ 0 ∉ argv_scratch [0, 0] := by
  constructor
  · rfl
  · decide

/-- struct ebpf_pid_info, as out_pid_info reads it (fields printed with
out_int except start_time_ns, printed with out_uint). -/
structure ebpf_pid_info where
  tid : Int
  tgid : Int
  ppid : Int
  pgid : Int
  sid : Int
  start_time_ns : Nat
  deriving Inhabited

/-- struct ebpf_cred_info, as out_cred_info reads it. -/
structure ebpf_cred_info where
  ruid : Int
  rgid : Int
  euid : Int
  egid : Int
  suid : Int
  sgid : Int
  deriving Inhabited

structure ebpf_tty_winsize where
  rows : Int
  cols : Int
  deriving Inhabited

structure ebpf_tty_termios where
  c_lflag : Nat
  deriving Inhabited

/-- struct ebpf_tty_dev, as out_tty_dev reads it. -/
structure ebpf_tty_dev where
  major : Int
  minor : Int
  winsize : ebpf_tty_winsize
  termios : ebpf_tty_termios
  deriving Inhabited

/-- The ECHO bit of c_lflag (0x8 on Linux). -/
def ECHO : Nat := 8

/-- out_tty_dev (lines 243-258). -/
def out_tty_dev (name : String) (t : ebpf_tty_dev) : List Chunk :=
  [Chunk.key name, Chunk.objStart,
   out_int "major" t.major, Chunk.comma,
   out_int "minor" t.minor, Chunk.comma,
   out_int "winsize_rows" t.winsize.rows, Chunk.comma,
   out_int "winsize_cols" t.winsize.cols, Chunk.comma,
   out_bool "ECHO" (t.termios.c_lflag &&& ECHO != 0),
   Chunk.objEnd]

/-- out_pid_info (lines 260-276). -/
def out_pid_info (name : String) (p : ebpf_pid_info) : List Chunk :=
  [Chunk.key name, Chunk.objStart,
   out_int "tid" p.tid, Chunk.comma,
   out_int "tgid" p.tgid, Chunk.comma,
   out_int "ppid" p.ppid, Chunk.comma,
   out_int "pgid" p.pgid, Chunk.comma,
   out_int "sid" p.sid, Chunk.comma,
   out_uint "start_time_ns" p.start_time_ns,
   Chunk.objEnd]

/-- out_cred_info (lines 278-294). -/
def out_cred_info (name : String) (c : ebpf_cred_info) : List Chunk :=
  [Chunk.key name, Chunk.objStart,
   out_int "ruid" c.ruid, Chunk.comma,
   out_int "rgid" c.rgid, Chunk.comma,
   out_int "euid" c.euid, Chunk.comma,
   out_int "egid" c.egid, Chunk.comma,
   out_int "suid" c.suid, Chunk.comma,
   out_int "sgid" c.sgid,
   Chunk.objEnd]

/-- Modelled from the spec: the event kind tags of EbpfEvents.h (the header
is not under src). Per the spec a closed enumeration with one stable bit
per kind in a 64-bit selection mask; no claim depends on the numeric
values, only on their being distinct. -/
def EBPF_EVENT_FILE_DELETE : Nat := 1
def EBPF_EVENT_FILE_CREATE : Nat := 2
def EBPF_EVENT_FILE_RENAME : Nat := 4
def EBPF_EVENT_PROCESS_FORK : Nat := 8
def EBPF_EVENT_PROCESS_EXEC : Nat := 16
def EBPF_EVENT_PROCESS_EXIT : Nat := 32
def EBPF_EVENT_PROCESS_SETSID : Nat := 64
def EBPF_EVENT_PROCESS_SETUID : Nat := 128
def EBPF_EVENT_PROCESS_SETGID : Nat := 256
def EBPF_EVENT_PROCESS_TTY_WRITE : Nat := 512
def EBPF_EVENT_NETWORK_CONNECTION_ATTEMPTED : Nat := 1024
def EBPF_EVENT_NETWORK_CONNECTION_ACCEPTED : Nat := 2048
def EBPF_EVENT_NETWORK_CONNECTION_CLOSED : Nat := 4096

/-- The 13 wire tags the dispatch switch of event_ctx_callback knows. -/
def knownEventTypes : List Nat :=
  [EBPF_EVENT_FILE_DELETE, EBPF_EVENT_FILE_CREATE, EBPF_EVENT_FILE_RENAME,
   EBPF_EVENT_PROCESS_FORK, EBPF_EVENT_PROCESS_EXEC, EBPF_EVENT_PROCESS_EXIT,
   EBPF_EVENT_PROCESS_SETSID, EBPF_EVENT_PROCESS_SETUID,
   EBPF_EVENT_PROCESS_SETGID, EBPF_EVENT_PROCESS_TTY_WRITE,
   EBPF_EVENT_NETWORK_CONNECTION_ATTEMPTED,
   EBPF_EVENT_NETWORK_CONNECTION_ACCEPTED,
   EBPF_EVENT_NETWORK_CONNECTION_CLOSED]

/-- struct ebpf_event_header: the common prefix holding the wire kind tag. -/
structure ebpf_event_header where
  type : Nat
  deriving Inhabited

structure ebpf_file_delete_event where
  pids : ebpf_pid_info
  path : List Nat
  mntns : Int
  comm : List Nat
  deriving Inhabited

structure ebpf_file_create_event where
  pids : ebpf_pid_info
  path : List Nat
  mntns : Int
  comm : List Nat
  deriving Inhabited

structure ebpf_file_rename_event where
  pids : ebpf_pid_info
  old_path : List Nat
  new_path : List Nat
  mntns : Int
  comm : List Nat
  deriving Inhabited

structure ebpf_process_fork_event where
  parent_pids : ebpf_pid_info
  child_pids : ebpf_pid_info
  pids_ss_cgroup_path : List Nat
  deriving Inhabited

/-- struct ebpf_process_exec_event; argv is the fixed-capacity buffer of
NUL separated arguments, its list length standing for sizeof(evt->argv). -/
structure ebpf_process_exec_event where
  pids : ebpf_pid_info
  creds : ebpf_cred_info
  ctty : ebpf_tty_dev
  filename : List Nat
  cwd : List Nat
  pids_ss_cgroup_path : List Nat
  argv : List Nat
  deriving Inhabited

structure ebpf_process_exit_event where
  pids : ebpf_pid_info
  pids_ss_cgroup_path : List Nat
  exit_code : Int
  deriving Inhabited

structure ebpf_process_setsid_event where
  pids : ebpf_pid_info
  deriving Inhabited

structure ebpf_process_setuid_event where
  pids : ebpf_pid_info
  new_ruid : Nat
  new_euid : Nat
  deriving Inhabited

structure ebpf_process_setgid_event where
  pids : ebpf_pid_info
  new_rgid : Nat
  new_egid : Nat
  deriving Inhabited

structure ebpf_process_tty_write_event where
  pids : ebpf_pid_info
  tty_out_len : Nat
  tty_out_truncated : Nat
  tty : ebpf_tty_dev
  tty_out : List Nat
  comm : List Nat
  deriving Inhabited

/-- Modelled from the spec: enum ebpf_net_event_transport of EbpfEvents.h
(not under src); TCP is the only transport of the closed set. -/
inductive NetTransport where
  | tcp
  deriving Inhabited

/-- Modelled from the spec: enum ebpf_net_event_family of EbpfEvents.h (not
under src); the spec makes the family tag a closed choice between AF_INET
and AF_INET6, with the v4 and v6 address fields mutually exclusive by that
tag, so the fields are modelled separately per family. -/
inductive NetFamily where
  | inet
  | inet6
  deriving Inhabited

/-- struct ebpf_net_info. Modelled from the spec: the layout lives in
EbpfEvents.h (not under src); the saddr/daddr fields hold 4 address bytes,
the saddr6/daddr6 fields 16. -/
structure ebpf_net_info where
  transport : NetTransport
  family : NetFamily
  saddr : List Nat
  daddr : List Nat
  saddr6 : List Nat
  daddr6 : List Nat
  sport : Int
  dport : Int
  netns : Int
  bytes_sent : Nat
  bytes_received : Nat
  deriving Inhabited

structure ebpf_net_event where
  hdr : ebpf_event_header
  pids : ebpf_pid_info
  net : ebpf_net_info
  comm : List Nat
  deriving Inhabited

/-- out_string applied to a NUL terminated C string literal (its bytes hold
no NUL, so the strlen read takes them all). -/
def out_string_lit (name : String) (value : String) : Chunk :=
  out_string name (value.data.map Char.toNat)

/-- inet_ntop for AF_INET: dotted decimal of the 4 address bytes read from
the field. -/
def inet_ntop4 (a : List Nat) : String :=
  String.intercalate "." ((a.take 4).map Nat.repr)

/-- Hex rendering of 16-bit groups of bytes, most significant byte first. -/
def hexGroups : List Nat → List String
  | b1 :: b2 :: rest => (printf02x b1 ++ printf02x b2) :: hexGroups rest
  | [b] => [printf02x b]
  | [] => []

/-- inet_ntop for AF_INET6, modelled as a plain rendering of the 16 address
bytes read from the field; the libc zero-compression rules are irrelevant
to every claim here, which only need the text to be a function of exactly
these bytes. -/
def inet_ntop6 (a : List Nat) : String :=
  String.intercalate ":" (hexGroups (a.take 16))

/-- out_ip_addr (lines 516-521). -/
def out_ip_addr (name : String) (addr : List Nat) : Chunk :=
  .strField name (inet_ntop4 addr)

/-- out_ip6_addr (lines 523-528). -/
def out_ip6_addr (name : String) (addr : List Nat) : Chunk :=
  .strField name (inet_ntop6 addr)

/-- out_net_info (lines 530-591): the transport switch, the family switch
(AF_INET reads saddr/daddr, AF_INET6 reads saddr6/daddr6), the network
namespace, and - only when the header type is
EBPF_EVENT_NETWORK_CONNECTION_CLOSED - the cumulative byte counters. -/
def out_net_info (name : String) (evt : ebpf_net_event) : List Chunk :=
  [Chunk.key name, Chunk.objStart]
  ++ (match evt.net.transport with
      | .tcp => [out_string_lit "transport" "TCP", Chunk.comma])
  ++ (match evt.net.family with
      | .inet =>
        [out_string_lit "family" "AF_INET", Chunk.comma,
         out_ip_addr "source_address" evt.net.saddr, Chunk.comma,
         out_int "source_port" evt.net.sport, Chunk.comma,
         out_ip_addr "destination_address" evt.net.daddr, Chunk.comma,
         out_int "destination_port" evt.net.dport]
      | .inet6 =>
        [out_string_lit "family" "AF_INET6", Chunk.comma,
         out_ip6_addr "source_address" evt.net.saddr6, Chunk.comma,
         out_int "source_port" evt.net.sport, Chunk.comma,
         out_ip6_addr "destination_address" evt.net.daddr6, Chunk.comma,
         out_int "destination_port" evt.net.dport])
  ++ [Chunk.comma, out_int "network_namespace" evt.net.netns]
  ++ (if evt.hdr.type = EBPF_EVENT_NETWORK_CONNECTION_CLOSED then
        [Chunk.comma, out_uint "bytes_sent" evt.net.bytes_sent,
         Chunk.comma, out_uint "bytes_received" evt.net.bytes_received]
      else [])
  ++ [Chunk.objEnd]

/-- out_file_delete (lines 318-337). -/
def out_file_delete (evt : ebpf_file_delete_event) : List Chunk :=
  [Chunk.objStart, Chunk.eventType "FILE_DELETE", Chunk.comma]
  ++ out_pid_info "pids" evt.pids
  ++ [Chunk.comma, out_string "path" evt.path,
      Chunk.comma, out_int "mount_namespace" evt.mntns,
      Chunk.comma, out_string "comm" evt.comm,
      Chunk.objEnd, Chunk.newline]

/-- out_file_create (lines 339-358). -/
def out_file_create (evt : ebpf_file_create_event) : List Chunk :=
  [Chunk.objStart, Chunk.eventType "FILE_CREATE", Chunk.comma]
  ++ out_pid_info "pids" evt.pids
  ++ [Chunk.comma, out_string "path" evt.path,
      Chunk.comma, out_int "mount_namespace" evt.mntns,
      Chunk.comma, out_string "comm" evt.comm,
      Chunk.objEnd, Chunk.newline]

/-- out_file_rename (lines 360-382). -/
def out_file_rename (evt : ebpf_file_rename_event) : List Chunk :=
  [Chunk.objStart, Chunk.eventType "FILE_RENAME", Chunk.comma]
  ++ out_pid_info "pids" evt.pids
  ++ [Chunk.comma, out_string "old_path" evt.old_path,
      Chunk.comma, out_string "new_path" evt.new_path,
      Chunk.comma, out_int "mount_namespace" evt.mntns,
      Chunk.comma, out_string "comm" evt.comm,
      Chunk.objEnd, Chunk.newline]

/-- out_process_fork (lines 384-400). -/
def out_process_fork (evt : ebpf_process_fork_event) : List Chunk :=
  [Chunk.objStart, Chunk.eventType "PROCESS_FORK", Chunk.comma]
  ++ out_pid_info "parent_pids" evt.parent_pids
  ++ [Chunk.comma]
  ++ out_pid_info "child_pids" evt.child_pids
  ++ [Chunk.comma, out_string "pids_ss_cgroup_path" evt.pids_ss_cgroup_path,
      Chunk.objEnd, Chunk.newline]

/-- out_process_exec (lines 402-430). -/
def out_process_exec (evt : ebpf_process_exec_event) : List Chunk :=
  [Chunk.objStart, Chunk.eventType "PROCESS_EXEC", Chunk.comma]
  ++ out_pid_info "pids" evt.pids
  ++ [Chunk.comma]
  ++ out_cred_info "creds" evt.creds
  ++ [Chunk.comma]
  ++ out_tty_dev "ctty" evt.ctty
  ++ [Chunk.comma, out_string "filename" evt.filename,
      Chunk.comma, out_string "cwd" evt.cwd,
      Chunk.comma, out_string "pids_ss_cgroup_path" evt.pids_ss_cgroup_path,
      Chunk.comma, out_argv "argv" evt.argv,
      Chunk.objEnd, Chunk.newline]

/-- out_process_setsid (lines 432-442). -/
def out_process_setsid (evt : ebpf_process_setsid_event) : List Chunk :=
  [Chunk.objStart, Chunk.eventType "PROCESS_SETSID", Chunk.comma]
  ++ out_pid_info "pids" evt.pids
  ++ [Chunk.objEnd, Chunk.newline]

/-- out_process_setuid (lines 444-458). -/
def out_process_setuid (evt : ebpf_process_setuid_event) : List Chunk :=
  [Chunk.objStart, Chunk.eventType "PROCESS_SETUID", Chunk.comma]
  ++ out_pid_info "pids" evt.pids
  ++ [Chunk.comma, out_uint "new_ruid" evt.new_ruid,
      Chunk.comma, out_uint "new_euid" evt.new_euid,
      Chunk.objEnd, Chunk.newline]

/-- out_process_setgid (lines 460-474). -/
def out_process_setgid (evt : ebpf_process_setgid_event) : List Chunk :=
  [Chunk.objStart, Chunk.eventType "PROCESS_SETGID", Chunk.comma]
  ++ out_pid_info "pids" evt.pids
  ++ [Chunk.comma, out_uint "new_rgid" evt.new_rgid,
      Chunk.comma, out_uint "new_egid" evt.new_egid,
      Chunk.objEnd, Chunk.newline]

/-- out_process_tty_write (lines 476-496). -/
def out_process_tty_write (evt : ebpf_process_tty_write_event) : List Chunk :=
  [Chunk.objStart, Chunk.eventType "PROCESS_TTY_WRITE", Chunk.comma]
  ++ out_pid_info "pids" evt.pids
  ++ [Chunk.comma, out_uint "tty_out_len" evt.tty_out_len,
      Chunk.comma, out_uint "tty_out_truncated" evt.tty_out_truncated,
      Chunk.comma]
  ++ out_tty_dev "tty" evt.tty
  ++ [Chunk.comma, out_string "tty_out" evt.tty_out,
      Chunk.comma, out_string "comm" evt.comm,
      Chunk.objEnd, Chunk.newline]

/-- out_process_exit (lines 498-514). -/
def out_process_exit (evt : ebpf_process_exit_event) : List Chunk :=
  [Chunk.objStart, Chunk.eventType "PROCESS_EXIT", Chunk.comma]
  ++ out_pid_info "pids" evt.pids
  ++ [Chunk.comma, out_string "pids_ss_cgroup_path" evt.pids_ss_cgroup_path,
      Chunk.comma, out_int "exit_code" evt.exit_code,
      Chunk.objEnd, Chunk.newline]

/-- out_network_event (lines 593-609). -/
def out_network_event (name : String) (evt : ebpf_net_event) : List Chunk :=
  [Chunk.objStart, Chunk.eventType name, Chunk.comma]
  ++ out_pid_info "pids" evt.pids
  ++ [Chunk.comma]
  ++ out_net_info "net" evt
  ++ [Chunk.comma, out_string "comm" evt.comm,
      Chunk.objEnd, Chunk.newline]

def out_network_connection_accepted_event (evt : ebpf_net_event) : List Chunk :=
  out_network_event "NETWORK_CONNECTION_ACCEPTED" evt

def out_network_connection_attempted_event (evt : ebpf_net_event) : List Chunk :=
  out_network_event "NETWORK_CONNECTION_ATTEMPTED" evt

def out_network_connection_closed_event (evt : ebpf_net_event) : List Chunk :=
  out_network_event "NETWORK_CONNECTION_CLOSED" evt

/-- The raw record event_ctx_callback receives: a header pointer the switch
casts to the event struct the tag names. The cast reinterprets the same
bytes, so the record is modelled carrying every interpretation; only the
branch the tag selects ever reads one. -/
structure RawRecord where
  hdr : ebpf_event_header
  asFork : ebpf_process_fork_event
  asExec : ebpf_process_exec_event
  asExit : ebpf_process_exit_event
  asSetsid : ebpf_process_setsid_event
  asSetuid : ebpf_process_setuid_event
  asSetgid : ebpf_process_setgid_event
  asTtyWrite : ebpf_process_tty_write_event
  asFileDelete : ebpf_file_delete_event
  asFileCreate : ebpf_file_create_event
  asFileRename : ebpf_file_rename_event
  asNet : ebpf_net_event
  deriving Inhabited

/-- event_ctx_callback (lines 626-671): dispatch on the header tag, in the
order of the switch; a tag matching no case falls through the switch and
the function returns 0 with nothing printed. -/
def event_ctx_callback (r : RawRecord) : List Chunk × Int :=
  if r.hdr.type = EBPF_EVENT_PROCESS_FORK then (out_process_fork r.asFork, 0)
  else if r.hdr.type = EBPF_EVENT_PROCESS_EXEC then (out_process_exec r.asExec, 0)
  else if r.hdr.type = EBPF_EVENT_PROCESS_EXIT then (out_process_exit r.asExit, 0)
  else if r.hdr.type = EBPF_EVENT_PROCESS_SETSID then
    (out_process_setsid r.asSetsid, 0)
  else if r.hdr.type = EBPF_EVENT_PROCESS_SETUID then
    (out_process_setuid r.asSetuid, 0)
  else if r.hdr.type = EBPF_EVENT_PROCESS_SETGID then
    (out_process_setgid r.asSetgid, 0)
  else if r.hdr.type = EBPF_EVENT_PROCESS_TTY_WRITE then
    (out_process_tty_write r.asTtyWrite, 0)
  else if r.hdr.type = EBPF_EVENT_FILE_DELETE then
    (out_file_delete r.asFileDelete, 0)
  else if r.hdr.type = EBPF_EVENT_FILE_CREATE then
    (out_file_create r.asFileCreate, 0)
  else if r.hdr.type = EBPF_EVENT_FILE_RENAME then
    (out_file_rename r.asFileRename, 0)
  else if r.hdr.type = EBPF_EVENT_NETWORK_CONNECTION_ACCEPTED then
    (out_network_connection_accepted_event r.asNet, 0)
  else if r.hdr.type = EBPF_EVENT_NETWORK_CONNECTION_ATTEMPTED then
    (out_network_connection_attempted_event r.asNet, 0)
  else if r.hdr.type = EBPF_EVENT_NETWORK_CONNECTION_CLOSED then
    (out_network_connection_closed_event r.asNet, 0)
  else ([], 0)

/-- The same net event with the IPv6 (alternate-family when AF_INET)
address fields overwritten. -/
def withV6Addrs (evt : ebpf_net_event) (s6 d6 : List Nat) : ebpf_net_event :=
  { evt with net := { evt.net with saddr6 := s6, daddr6 := d6 } }

/-- The same net event with the IPv4 (alternate-family when AF_INET6)
address fields overwritten. -/
def withV4Addrs (evt : ebpf_net_event) (s4 d4 : List Nat) : ebpf_net_event :=
  { evt with net := { evt.net with saddr := s4, daddr := d4 } }

/-- C3: address emission is family tagged - an AF_INET event reads only the
4-byte fields and an AF_INET6 event only the 16-byte fields, so two events
that differ only in the alternate (unused) family's address bytes produce
identical out_net_info output. -/
theorem C3_net_output_ignores_alternate_family (name : String)
    (evt : ebpf_net_event) (a b : List Nat) :
    (evt.net.family = NetFamily.inet →
      out_net_info name (withV6Addrs evt a b) = out_net_info name evt) ∧
    (evt.net.family = NetFamily.inet6 →
      out_net_info name (withV4Addrs evt a b) = out_net_info name evt) := by
  obtain ⟨hdr, pids, net, comm⟩ := evt
  obtain ⟨tr, fam, sa, da, sa6, da6, sp, dp, ns, bs, br⟩ := net
  constructor <;> intro hfam
  · cases fam with
    | inet => rfl
    | inet6 => exact NetFamily.noConfusion hfam
  · cases fam with
    | inet => exact NetFamily.noConfusion hfam
    | inet6 => rfl

/-- A sample network event for the closed instantiations below. -/
def sampleNetEvent : ebpf_net_event :=
  { hdr := { type := EBPF_EVENT_NETWORK_CONNECTION_ATTEMPTED },
    pids := { tid := 7, tgid := 7, ppid := 1, pgid := 7, sid := 7,
              start_time_ns := 0 },
    net := { transport := .tcp, family := .inet,
             saddr := [127, 0, 0, 1], daddr := [127, 0, 0, 1],
             saddr6 := List.replicate 16 0, daddr6 := List.replicate 16 0,
             sport := 4000, dport := 80, netns := 1,
             bytes_sent := 0, bytes_received := 0 },
    comm := [116, 99, 112] }

/-- C3 witness: scribbling over the unused IPv6 fields of a concrete
AF_INET event leaves the emitted net object unchanged. -/
theorem C3_witness :
    out_net_info "net" (withV6Addrs sampleNetEvent [9, 9] [8, 8])
      = out_net_info "net" sampleNetEvent :=
  (C3_net_output_ignores_alternate_family "net" sampleNetEvent [9, 9] [8, 8]).1 rfl

/-- The JSON key a chunk contributes as a scalar field of the current
object (sub-object labels and punctuation contribute none). -/
def fieldName : Chunk → Option String
  | .field n _ => some n
  | .strField n _ => some n
  | .boolField n _ => some n
  | _ => none

/-- The emitted chunk list carries a scalar field of the given name. -/
def hasField (cs : List Chunk) (n : String) : Prop :=
  ∃ c ∈ cs, fieldName c = some n

theorem fieldName_out_string (name : String) (v : List Nat) :
    fieldName (out_string name v) = some name := rfl

theorem fieldName_out_string_lit (name v : String) :
    fieldName (out_string_lit name v) = some name := rfl

theorem fieldName_out_int (name : String) (v : Int) :
    fieldName (out_int name v) = some name := rfl

theorem fieldName_out_uint (name : String) (v : Nat) :
    fieldName (out_uint name v) = some name := rfl

theorem fieldName_out_ip_addr (name : String) (a : List Nat) :
    fieldName (out_ip_addr name a) = some name := rfl

theorem fieldName_out_ip6_addr (name : String) (a : List Nat) :
    fieldName (out_ip6_addr name a) = some name := rfl

theorem fieldName_key (name : String) : fieldName (Chunk.key name) = none := rfl

theorem fieldName_objStart : fieldName Chunk.objStart = none := rfl

theorem fieldName_objEnd : fieldName Chunk.objEnd = none := rfl

theorem fieldName_comma : fieldName Chunk.comma = none := rfl

/-- C5: the net object carries bytes_sent and bytes_received exactly when
the header type is NETWORK_CONNECTION_CLOSED, and carries transport,
family, both addresses, both ports and the network namespace for every
network event kind. -/
theorem C5_bytes_counters_only_on_close (name : String) (evt : ebpf_net_event) :
    (hasField (out_net_info name evt) "bytes_sent" ↔
      evt.hdr.type = EBPF_EVENT_NETWORK_CONNECTION_CLOSED) ∧
    (hasField (out_net_info name evt) "bytes_received" ↔
      evt.hdr.type = EBPF_EVENT_NETWORK_CONNECTION_CLOSED) ∧
    hasField (out_net_info name evt) "transport" ∧
    hasField (out_net_info name evt) "family" ∧
    hasField (out_net_info name evt) "source_address" ∧
    hasField (out_net_info name evt) "source_port" ∧
    hasField (out_net_info name evt) "destination_address" ∧
    hasField (out_net_info name evt) "destination_port" ∧
    hasField (out_net_info name evt) "network_namespace" := by
  obtain ⟨⟨ty⟩, pids, net, comm⟩ := evt
  obtain ⟨tr, fam, sa, da, sa6, da6, sp, dp, ns, bs, br⟩ := net
  cases tr
  by_cases hty : ty = EBPF_EVENT_NETWORK_CONNECTION_CLOSED <;>
    cases fam <;>
      simp [out_net_info, hasField, hty, fieldName_out_string,
        fieldName_out_string_lit, fieldName_out_int, fieldName_out_uint,
        fieldName_out_ip_addr, fieldName_out_ip6_addr, fieldName_key,
        fieldName_objStart, fieldName_objEnd, fieldName_comma]

/-- C8: a record whose header tag is none of the 13 known event kinds falls
through the dispatch switch - nothing is printed and the callback still
returns 0, so consumption continues. -/
theorem C8_unknown_kind_silently_dropped (r : RawRecord)
    (h : r.hdr.type ∉ knownEventTypes) :
    event_ctx_callback r = ([], 0) := by
  simp only [knownEventTypes, List.mem_cons, List.not_mem_nil, or_false,
    not_or] at h
  obtain ⟨h1, h2, h3, h4, h5, h6, h7, h8, h9, h10, h11, h12, h13⟩ := h
  simp [event_ctx_callback, h1, h2, h3, h4, h5, h6, h7, h8, h9, h10, h11,
    h12, h13]

/-- A concrete record whose header carries the unknown tag 3. -/
def sampleUnknownRecord : RawRecord :=
  { hdr := { type := 3 }, asFork := default, asExec := default,
    asExit := default, asSetsid := default, asSetuid := default,
    asSetgid := default, asTtyWrite := default, asFileDelete := default,
    asFileCreate := default, asFileRename := default, asNet := default }

/-- C8 witness: the tag 3 is no known kind; the callback prints nothing and
returns 0 on a concrete record carrying it. -/
theorem C8_witness : event_ctx_callback sampleUnknownRecord = ([], 0) :=
  C8_unknown_kind_silently_dropped sampleUnknownRecord (by decide)

/-- How the consumption loop of main ends. -/
inductive LoopExit where
  | normal
  | pollError (err : Int)
  deriving DecidableEq

/-- Whether the loop surfaced an error and whether ebpf_event_ctx__destroy
ran after it. -/
structure LoopOutcome where
  exit : LoopExit
  destroyed : Bool
  deriving DecidableEq

/-- errno EINTR (4 on Linux); ebpf_event_ctx__next surfaces an interrupted
poll as -EINTR. -/
def EINTR : Int := 4

/-- The consumption loop of main (lines 715-723) over the successive
results of ebpf_event_ctx__next: the list ends when the SIGINT flag is
observed set (normal exit); a negative result other than -EINTR prints the
error and breaks; ebpf_event_ctx__destroy (line 723) runs right after the
loop on both paths. -/
def pollLoop : List Int → LoopOutcome
  | [] => { exit := .normal, destroyed := true }
  | e :: rest =>
    if e < 0 ∧ e ≠ -EINTR then { exit := .pollError e, destroyed := true }
    else pollLoop rest

/-- C4: a poll returning -EINTR is retried as if nothing happened; any
other negative result stops the loop surfacing that error; and the context
is destroyed on the normal path and the error path alike. -/
theorem C4_poll_eintr_retried_error_fatal_destroy_always :
    (∀ rest : List Int, pollLoop (-EINTR :: rest) = pollLoop rest) ∧
    (∀ (e : Int) (rest : List Int), e < 0 → e ≠ -EINTR →
      pollLoop (e :: rest)
        = { exit := LoopExit.pollError e, destroyed := true }) ∧
    (∀ results : List Int, (pollLoop results).destroyed = true) := by
  refine ⟨fun rest => ?_, fun e rest h1 h2 => ?_, fun results => ?_⟩
  · rw [pollLoop, if_neg fun hcontra => hcontra.2 rfl]
  · rw [pollLoop, if_pos ⟨h1, h2⟩]
  · induction results with
    | nil => rfl
    | cons e rest ih =>
      rw [pollLoop]
      split
      · rfl
      · exact ih

/-- C4 instantiated: an interrupted poll followed by an I/O error gives the
error outcome with the context destroyed. -/
theorem C4_witness :
    pollLoop [-EINTR, -5] = { exit := LoopExit.pollError (-5), destroyed := true } := by
  have h1 := C4_poll_eintr_retried_error_fatal_destroy_always.1 [-5]
  have h2 := C4_poll_eintr_retried_error_fatal_destroy_always.2.1 (-5) []
    (by decide) (by decide)
  exact h1.trans h2

/-- Modelled from the spec: the PidInfo of the child created by fork() as
the kernel probe (not under src) reports it; per the fork scenario of the
spec the child is a new thread-group leader, in the parent session and
process group, with the parent thread group as ppid. -/
def fork_child_pids (parent : ebpf_pid_info) (childPid : Int) (stime : Nat) :
    ebpf_pid_info :=
  { tid := childPid, tgid := childPid, ppid := parent.tgid,
    pgid := parent.pgid, sid := parent.sid, start_time_ns := stime }

/-- Modelled from the spec: one fork() call of a helper process yields
exactly one ProcessFork event. -/
def fork_events (parent : ebpf_pid_info) (childPid : Int) (stime : Nat)
    (cg : List Nat) : List ebpf_process_fork_event :=
  [{ parent_pids := parent,
     child_pids := fork_child_pids parent childPid stime,
     pids_ss_cgroup_path := cg }]

/-- C6: every ProcessFork event of a fork() call satisfies the pid
invariants of the test TestForkExit: the child is a thread-group leader
(tid = tgid) sharing the parent session and process group but not the
parent thread group, and exactly one such event is produced. -/
theorem C6_fork_event_pid_invariants (parent : ebpf_pid_info) (childPid : Int)
    (stime : Nat) (cg : List Nat) (h : childPid ≠ parent.tgid) :
    (fork_events parent childPid stime cg).length = 1 ∧
    ∀ e ∈ fork_events parent childPid stime cg,
      e.child_pids.tid = e.child_pids.tgid ∧
      e.child_pids.sid = e.parent_pids.sid ∧
      e.child_pids.pgid = e.parent_pids.pgid ∧
      e.child_pids.tgid ≠ e.parent_pids.tgid := by
  refine ⟨rfl, fun e he => ?_⟩
  rw [fork_events, List.mem_singleton] at he
  subst he
  exact ⟨rfl, rfl, rfl, h⟩

/-- A sample parent PidInfo (a session and group leader with tgid 5). -/
def sampleParentPids : ebpf_pid_info :=
  { tid := 5, tgid := 5, ppid := 1, pgid := 5, sid := 5, start_time_ns := 0 }

/-- C6 witness: a concrete fork (parent tgid 5, child pid 6). -/
theorem C6_witness :
    (fork_events sampleParentPids 6 100 []).length = 1 ∧
    ∀ e ∈ fork_events sampleParentPids 6 100 [],
      e.child_pids.tid = e.child_pids.tgid ∧
      e.child_pids.sid = e.parent_pids.sid ∧
      e.child_pids.pgid = e.parent_pids.pgid ∧
      e.child_pids.tgid ≠ e.parent_pids.tgid :=
  C6_fork_event_pid_invariants sampleParentPids 6 100 [] (by decide)

/-- Modelled from the spec: the tty-write probe (not under src) captures up
to cap bytes of one write; the captured length accompanies the text and the
truncation flag is set exactly when the write did not fit (spec 4.4 rule 6),
and one write yields exactly one event. -/
def tty_write_events (pids : ebpf_pid_info) (tty : ebpf_tty_dev)
    (data : List Nat) (cap : Nat) (comm : List Nat) :
    List ebpf_process_tty_write_event :=
  [{ pids := pids,
     tty_out_len := min data.length cap,
     tty_out_truncated := if cap < data.length then 1 else 0,
     tty := tty,
     tty_out := data.take cap,
     comm := comm }]

/-- The seven bytes of "--- OK\n". -/
def okBytes : List Nat := [45, 45, 45, 32, 79, 75, 10]

/-- C7: writing the 7-byte string "--- OK\n" to a virtual console (device
major 4, zero window size) yields one tty-write event with len 7, truncated
0, the text intact, major 4 and zero window-size fields; out_process_tty_write
renders the text as the JSON escape "--- OK\\n", whose unescape is exactly
the original bytes. -/
theorem C7_tty_write_ok_scenario (pids : ebpf_pid_info) (minor : Int)
    (lflag : Nat) (cap : Nat) (comm : List Nat) (h : 7 ≤ cap) :
    (tty_write_events pids
        { major := 4, minor := minor, winsize := { rows := 0, cols := 0 },
          termios := { c_lflag := lflag } } okBytes cap comm).length = 1 ∧
    ∀ e ∈ tty_write_events pids
        { major := 4, minor := minor, winsize := { rows := 0, cols := 0 },
          termios := { c_lflag := lflag } } okBytes cap comm,
      e.tty_out_len = 7 ∧
      e.tty_out_truncated = 0 ∧
      e.tty_out = okBytes ∧
      e.tty.major = 4 ∧
      e.tty.winsize.rows = 0 ∧
      e.tty.winsize.cols = 0 ∧
      out_string "tty_out" e.tty_out = Chunk.strField "tty_out" "--- OK\\n" := by
  have hlen : okBytes.length = 7 := rfl
  have htake : okBytes.take cap = okBytes :=
    List.take_of_length_le (by rw [hlen]; omega)
  refine ⟨rfl, fun e he => ?_⟩
  rw [tty_write_events, List.mem_singleton] at he
  subst he
  refine ⟨?_, ?_, ?_, rfl, rfl, rfl, ?_⟩
  · show min okBytes.length cap = 7
    rw [hlen]
    omega
  · show (if cap < okBytes.length then 1 else 0) = 0
    rw [hlen, if_neg (by omega)]
  · exact htake
  · show out_string "tty_out" (okBytes.take cap) = _
    rw [htake]
    rfl

/-- A sample writer PidInfo for the tty scenario. -/
def sampleTtyPids : ebpf_pid_info :=
  { tid := 9, tgid := 9, ppid := 1, pgid := 9, sid := 9, start_time_ns := 0 }

/-- A virtual console device: major 4, zero window size. -/
def sampleConsoleDev : ebpf_tty_dev :=
  { major := 4, minor := 0, winsize := { rows := 0, cols := 0 },
    termios := { c_lflag := 0 } }

/-- C7 witness: the scenario at a concrete capture capacity of 4096. -/
theorem C7_witness :
    (tty_write_events sampleTtyPids sampleConsoleDev okBytes 4096 []).length = 1 ∧
    ∀ e ∈ tty_write_events sampleTtyPids sampleConsoleDev okBytes 4096 [],
      e.tty_out_len = 7 ∧
      e.tty_out_truncated = 0 ∧
      e.tty_out = okBytes ∧
      e.tty.major = 4 ∧
      e.tty.winsize.rows = 0 ∧
      e.tty.winsize.cols = 0 ∧
      out_string "tty_out" e.tty_out = Chunk.strField "tty_out" "--- OK\\n" :=
  C7_tty_write_ok_scenario sampleTtyPids 0 0 4096 [] (by decide)

end EventsTrace
